import Mathlib

/-!
Verification of the rate-limiting core of the job-flow backend
(`src/core/rate_limit.py`): the `RateLimiter` class and the
`RateLimitMiddleware` that wraps it.

Modelling conventions:
* Python `float` timestamps (`time.time()`) are modelled as `ℚ`.
* Python `int(...)` applied to a float truncates toward zero; `pyInt` below.
* Python `dict` state (`self.requests`, nested per key/endpoint) is modelled
  as a single function `String × String → Option Counter`, since the
  observable content of the nested dicts is exactly the per-pair counters.
* Python `str.split("/")` is modelled by `pySplit` (structural recursion,
  keeping empty segments, at least one segment for the empty string —
  exactly CPython's semantics for a one-character separator).
* Fallible operations that the claims ask about (list indexing in the
  limit-resolution block) get a `Option`-returning "checked" twin, proved
  to never fail.
-/

/-- Python `int(x)` on a real value: truncation toward zero
(floor for non-negative values, ceiling for negative ones). -/
def pyInt (q : ℚ) : ℤ := if q < 0 then ⌈q⌉ else ⌊q⌋

/-- Split a character list at every occurrence of `sep`, keeping empty
segments; the empty list yields one empty segment.  This is CPython's
`str.split(sep)` for a one-character `sep`, on the character level. -/
def splitChar (sep : Char) : List Char → List (List Char)
  | [] => [[]]
  | x :: xs =>
    let r := splitChar sep xs
    if x = sep then [] :: r
    else
      match r with
      | [] => [[x]]
      | y :: ys => (x :: y) :: ys

/-- Python `s.split(sep)` for a one-character separator `sep`. -/
def pySplit (sep : Char) (s : String) : List String :=
  (splitChar sep s.data).map fun l => ⟨l⟩

/-- A value of the `self.default_limits` dict: either a flat per-minute
quota or a nested dict of per-operation quotas. -/
inductive LimitVal where
  | flat (n : ℤ)
  | sub (ops : List (String × ℤ))
deriving DecidableEq

/-- The dict `self.default_limits` from `RateLimiter.__init__` (lines 26–41). -/
def default_limits : List (String × LimitVal) :=
  [("default", .flat 60),
   ("resume", .sub [("parse", 10), ("enhance", 5), ("analyze", 5)]),
   ("jobs", .sub [("search", 30), ("apply", 20)]),
   ("auth", .sub [("login", 10), ("register", 5)])]

/-- The entry `self.default_limits["default"]`: the global default quota. -/
def global_default : ℤ := 60

/-- The limit-resolution block of `RateLimiter.is_rate_limited`
(lines 65–79), run when no explicit `limit` argument is supplied:
`parts = endpoint.split("/")`; with at least two parts, `parts[1]` is the
category and `parts[2]` (when present) the operation; a category mapped to
a nested dict containing the operation yields that sub-limit, anything
else yields `self.default_limits["default"]`. -/
def resolve_limit (endpoint : String) : ℤ :=
  match pySplit '/' endpoint with
  | _ :: category :: rest =>
    let operation : Option String := rest.head?
    match default_limits.lookup category with
    | some (.sub ops) =>
      match operation with
      | some op =>
        match ops.lookup op with
        | some l => l
        | none => global_default
      | none => global_default
    | _ => global_default
  | _ => global_default

/-- The effective limit of a call: the explicit `limit` argument when
supplied, otherwise the resolved per-endpoint limit. -/
def eff_limit (lim : Option ℤ) (endpoint : String) : ℤ :=
  match lim with
  | some l => l
  | none => resolve_limit endpoint

/-- A window counter: `self.requests[key][endpoint] = (count, window_start)`. -/
structure Counter where
  count : ℤ
  window_start : ℚ
deriving DecidableEq

/-- The observable content of the nested `self.requests` dict: the counter
stored for each (client key, endpoint key) pair, if any. -/
abbrev RequestTable := String × String → Option Counter

/-- The constant `self.WINDOW_SIZE` (1-minute window). -/
def WINDOW_SIZE : ℕ := 60

/-- The `info` dict returned by `is_rate_limited`. -/
structure RLInfo where
  limit : ℤ
  remaining : ℤ
  reset : ℤ
  window : ℕ
deriving DecidableEq

/-- Return value of one `is_rate_limited` call: the decision, the `info`
dict, and the request table after the call. -/
structure RLResult where
  is_limited : Bool
  info : RLInfo
  requests : RequestTable

/-- The method `RateLimiter.is_rate_limited` (lines 43–96).  `now` is the single
`time.time()` sample taken inside the call.

* insert `(0, now)` for the pair when absent;
* read the pair's counter; reset it (in local variables) to `(0, now)`
  when `now - window_start >= WINDOW_SIZE`;
* resolve the limit when the `limit` argument is `None`;
* `is_limited = count >= limit`; when not limited, increment and persist;
* `remaining = max(0, limit - count)` over the post-decision count,
  `reset = int(window_start + WINDOW_SIZE)`. -/
def is_rate_limited (requests : RequestTable) (now : ℚ)
    (key endpoint : String) (lim : Option ℤ) : RLResult :=
  let requests1 : RequestTable :=
    match requests (key, endpoint) with
    | none => fun p => if p = (key, endpoint) then some ⟨0, now⟩ else requests p
    | some _ => requests
  let c0 : Counter := (requests1 (key, endpoint)).getD ⟨0, now⟩
  let c1 : Counter :=
    if (WINDOW_SIZE : ℚ) ≤ now - c0.window_start then ⟨0, now⟩ else c0
  let limit : ℤ := eff_limit lim endpoint
  let is_lim : Bool := decide (limit ≤ c1.count)
  let count2 : ℤ := if is_lim then c1.count else c1.count + 1
  let requests2 : RequestTable :=
    if is_lim then requests1
    else fun p =>
      if p = (key, endpoint) then some ⟨count2, c1.window_start⟩ else requests1 p
  let reset_time : ℚ := c1.window_start + (WINDOW_SIZE : ℚ)
  ⟨is_lim,
   ⟨limit, max 0 (limit - count2), pyInt reset_time, WINDOW_SIZE⟩,
   requests2⟩

/-- The counter the call works on after the insert-if-absent step
(`(0, now)` for an absent pair, the stored counter otherwise). -/
def looked_up (requests : RequestTable) (now : ℚ) (key endpoint : String) :
    Counter :=
  match requests (key, endpoint) with
  | none => ⟨0, now⟩
  | some c => c

/-- The window-reset step applied to a counter: fresh `(0, now)` when the
window has elapsed, unchanged otherwise. -/
def after_reset (now : ℚ) (c : Counter) : Counter :=
  if (WINDOW_SIZE : ℚ) ≤ now - c.window_start then ⟨0, now⟩ else c

/-- The post-decision count of a call: incremented exactly when admitted. -/
def post_count (L : ℤ) (c : Counter) : ℤ :=
  if L ≤ c.count then c.count else c.count + 1

theorem is_rate_limited_is_limited (requests : RequestTable) (now : ℚ)
    (key endpoint : String) (lim : Option ℤ) :
    (is_rate_limited requests now key endpoint lim).is_limited
      = decide (eff_limit lim endpoint
          ≤ (after_reset now (looked_up requests now key endpoint)).count) := by
  unfold is_rate_limited looked_up after_reset
  cases h : requests (key, endpoint) <;> simp [h]

theorem is_rate_limited_info (requests : RequestTable) (now : ℚ)
    (key endpoint : String) (lim : Option ℤ) :
    (is_rate_limited requests now key endpoint lim).info
      = ⟨eff_limit lim endpoint,
         max 0 (eff_limit lim endpoint
           - post_count (eff_limit lim endpoint)
               (after_reset now (looked_up requests now key endpoint))),
         pyInt ((after_reset now (looked_up requests now key endpoint)).window_start
           + (WINDOW_SIZE : ℚ)),
         WINDOW_SIZE⟩ := by
  unfold is_rate_limited looked_up after_reset post_count
  cases h : requests (key, endpoint) <;> simp [h]

theorem is_rate_limited_requests (requests : RequestTable) (now : ℚ)
    (key endpoint : String) (lim : Option ℤ) (p : String × String) :
    (is_rate_limited requests now key endpoint lim).requests p
      = if p = (key, endpoint)
        then some (if eff_limit lim endpoint
            ≤ (after_reset now (looked_up requests now key endpoint)).count
          then looked_up requests now key endpoint
          else ⟨(after_reset now (looked_up requests now key endpoint)).count + 1,
                (after_reset now (looked_up requests now key endpoint)).window_start⟩)
        else requests p := by
  unfold is_rate_limited looked_up after_reset
  cases h : requests (key, endpoint) with
  | none =>
    by_cases hp : p = (key, endpoint) <;>
      simp [h, hp] <;> split <;> simp_all [hp]
  | some c =>
    by_cases hp : p = (key, endpoint) <;>
      by_cases hw : (WINDOW_SIZE : ℚ) ≤ now - c.window_start <;>
        simp [h, hp, hw] <;> split <;> simp_all [hp, h]

/-- Run a sequence of `is_rate_limited` calls for one fixed
(client key, endpoint key) pair, one call per timestamp in `ts`, threading
the request table through; returns the (decision, info) of every call in
order together with the final table. -/
def run_calls (key endpoint : String) (lim : Option ℤ) :
    RequestTable → List ℚ → List (Bool × RLInfo) × RequestTable
  | requests, [] => ([], requests)
  | requests, t :: ts =>
    let r := is_rate_limited requests t key endpoint lim
    let rest := run_calls key endpoint lim r.requests ts
    ((r.is_limited, r.info) :: rest.1, rest.2)

/-- Expected outcome of the `i`-th call of an in-window sequence that
starts from a counter `(c, w0)`: admitted with `remaining = L - (c+i+1)`
while `c + i < L`, rejected with `remaining = 0` afterwards. -/
def window_result (L c : ℤ) (w0 : ℚ) (i : ℕ) : Bool × RLInfo :=
  if c + i < L then
    (false, ⟨L, L - (c + i + 1), pyInt (w0 + (WINDOW_SIZE : ℚ)), WINDOW_SIZE⟩)
  else
    (true, ⟨L, 0, pyInt (w0 + (WINDOW_SIZE : ℚ)), WINDOW_SIZE⟩)

theorem window_result_succ (L c : ℤ) (w0 : ℚ) (i : ℕ) :
    window_result L c w0 (i + 1)
      = window_result L (if L ≤ c then c else c + 1) w0 i := by
  unfold window_result
  push_cast
  by_cases hc : L ≤ c
  · have h1 : ¬(c + ((i : ℤ) + 1) < L) := by omega
    have h2 : ¬(c + (i : ℤ) < L) := by omega
    rw [if_pos hc, if_neg h1, if_neg h2]
  · have h1 : (c + ((i : ℤ) + 1) < L) ↔ (c + 1 + (i : ℤ) < L) := by omega
    rw [if_neg hc]
    by_cases h2 : c + 1 + (i : ℤ) < L
    · rw [if_pos (h1.mpr h2), if_pos h2]
      have h3 : L - (c + ((i : ℤ) + 1) + 1) = L - (c + 1 + (i : ℤ) + 1) := by
        omega
      rw [h3]
    · rw [if_neg (fun hh => h2 (h1.mp hh)), if_neg h2]

/-- Closed form of `run_calls` when every timestamp stays inside the
60-second window that starts at the pair's current `window_start` `w0`:
the `i`-th call behaves as `window_result L c w0 i`, the number of admitted
calls is `min ts.length (L - c).toNat`, and the final counter is still in
the window started at `w0`. -/
theorem run_calls_closed (key endpoint : String) (lim : Option ℤ) (L : ℤ)
    (hLim : eff_limit lim endpoint = L) (w0 : ℚ) (ts : List ℚ) :
    ∀ (requests : RequestTable) (c : ℤ),
      requests (key, endpoint) = some ⟨c, w0⟩ →
      (∀ t ∈ ts, w0 ≤ t ∧ t - w0 < (WINDOW_SIZE : ℚ)) →
      (run_calls key endpoint lim requests ts).1
          = (List.range ts.length).map (window_result L c w0)
      ∧ ((run_calls key endpoint lim requests ts).1.filter
            (fun r => !r.1)).length
          = min ts.length (L - c).toNat := by
  induction ts with
  | nil => intro requests c _ _; simp [run_calls]
  | cons t ts ih =>
    intro requests c hc hts
    obtain ⟨ht0, ht1⟩ := hts t (by simp)
    have hts' : ∀ t' ∈ ts, w0 ≤ t' ∧ t' - w0 < (WINDOW_SIZE : ℚ) :=
      fun t' ht' => hts t' (by simp [ht'])
    have hlook : looked_up requests t key endpoint = ⟨c, w0⟩ := by
      unfold looked_up; rw [hc]
    have hreset : after_reset t (looked_up requests t key endpoint) = ⟨c, w0⟩ := by
      unfold after_reset
      rw [hlook]
      simp only [Counter.mk.injEq]
      rw [if_neg (by simpa using not_le.mpr ht1)]
    have hisl := is_rate_limited_is_limited requests t key endpoint lim
    have hinfo := is_rate_limited_info requests t key endpoint lim
    have hreq := is_rate_limited_requests requests t key endpoint lim
        (key, endpoint)
    rw [hreset] at hisl hinfo hreq
    rw [hlook] at hreq
    rw [if_pos rfl] at hreq
    rw [hLim] at hisl hinfo hreq
    set r := is_rate_limited requests t key endpoint lim with hr
    have hc' : r.requests (key, endpoint)
        = some ⟨if L ≤ c then c else c + 1, w0⟩ := by
      rw [hreq]
      by_cases hlc : L ≤ c <;> simp [hlc]
    have ihr := ih r.requests (if L ≤ c then c else c + 1) hc' hts'
    have hstep : run_calls key endpoint lim requests (t :: ts)
        = ((r.is_limited, r.info) ::
            (run_calls key endpoint lim r.requests ts).1,
           (run_calls key endpoint lim r.requests ts).2) := by
      simp [run_calls]
    constructor
    · rw [hstep]
      have hhead : (r.is_limited, r.info) = window_result L c w0 0 := by
        rw [hisl, hinfo]
        unfold window_result post_count
        by_cases hlc : L ≤ c
        · have h0 : ¬(c + ((0 : ℕ) : ℤ) < L) := by push_cast; omega
          have h0' : ¬(c < L) := by omega
          simp [h0, h0', hlc]
        · have h0 : c + ((0 : ℕ) : ℤ) < L := by push_cast; omega
          have h0' : c < L := by omega
          simp [h0, h0', hlc]
          all_goals omega
      dsimp only
      rw [ihr.1, List.length_cons, List.range_succ_eq_map, List.map_cons,
        List.map_map, hhead]
      congr 1
      apply List.map_congr_left
      intro i _
      simpa using (window_result_succ L c w0 i).symm
    · rw [hstep]
      by_cases hlc : L ≤ c
      · have hlim : r.is_limited = true := by rw [hisl]; simpa using hlc
        rw [List.filter_cons]
        simp only [hlim, Bool.not_true, List.length_cons]
        norm_num
        rw [ihr.2, if_pos hlc]
        omega
      · have hlim : r.is_limited = false := by rw [hisl]; simpa using hlc
        rw [List.filter_cons]
        simp only [hlim, Bool.not_false, List.length_cons]
        norm_num
        rw [ihr.2, if_neg hlc]
        omega

/-- The limit-resolution block with Python's fallible list indexing made
explicit: `parts[1]` and `parts[2]` return `none` where Python would raise
`IndexError`; every other step of the block is infallible (`in`-guarded
dict accesses).  Agrees with `resolve_limit` everywhere
(`resolve_limit_checked_eq`). -/
def resolve_limit_checked (endpoint : String) : Option ℤ :=
  let parts := pySplit '/' endpoint
  if 2 ≤ parts.length then
    match parts[1]? with
    | none => none
    | some category =>
      match (if 2 < parts.length then
              match parts[2]? with
              | none => none
              | some op => some (some op)
            else some none) with
      | none => none
      | some operation =>
        match default_limits.lookup category with
        | some (.sub ops) =>
          match operation with
          | some op =>
            match ops.lookup op with
            | some l => some l
            | none => some global_default
          | none => some global_default
        | _ => some global_default
  else some global_default

theorem resolve_limit_checked_eq (endpoint : String) :
    resolve_limit_checked endpoint = some (resolve_limit endpoint) := by
  unfold resolve_limit_checked resolve_limit
  cases hp : pySplit '/' endpoint with
  | nil => simp
  | cons a rest =>
    cases rest with
    | nil => simp
    | cons category rest' =>
      cases rest' with
      | nil =>
        simp only [List.length_cons, List.length_nil]
        rw [if_pos (by omega)]
        have h2 : ¬(2 < 0 + 1 + 1) := by omega
        simp [h2, List.head?]
        rcases default_limits.lookup category with _ | v
        · simp
        · cases v <;> simp
      | cons op rest'' =>
        simp only [List.length_cons]
        rw [if_pos (by omega)]
        have h2 : 2 < rest''.length + 1 + 1 + 1 := by omega
        simp [h2, List.head?]
        rcases default_limits.lookup category with _ | v
        · simp
        · cases v with
          | flat n => simp
          | sub ops =>
            simp only
            rcases ops.lookup op with _ | l <;> simp

/-- The downstream handler's response (`await call_next(request)`):
status, an opaque body identified by a tag, and response headers. -/
structure HandlerResponse where
  status : ℕ
  body_tag : ℕ
  headers : String → Option String

/-- Body of the response the middleware returns: either the handler's
(opaque) body passed through, or the JSON rejection body
`{"detail": ..., "type": ..., "retry_after": ...}` built on line 131-135. -/
inductive RespBody where
  | from_handler (tag : ℕ)
  | rate_limit_error (detail ty : String) (retry_after : ℤ)
deriving DecidableEq

/-- The HTTP response the middleware returns to the caller. -/
structure Response where
  status : ℕ
  body : RespBody
  headers : String → Option String

/-- Outcome of one `RateLimitMiddleware.dispatch` call: the response, the
limiter table afterwards, whether `call_next` was awaited, and how many
`is_rate_limited` calls were made. -/
structure DispatchResult where
  response : Response
  requests : RequestTable
  handler_invoked : Bool
  limiter_calls : ℕ

/-- Python `response.headers[k] = v`: set one header, overwriting any old value. -/
def set_header (h : String → Option String) (k v : String) :
    String → Option String :=
  fun k' => if k' = k then some v else h k'

/-- The three quota headers built from an `info` dict (lines 122–126),
written over `base` in Python dict order. -/
def rl_headers (info : RLInfo) (base : String → Option String) :
    String → Option String :=
  set_header (set_header (set_header base
    "X-RateLimit-Limit" (toString info.limit))
    "X-RateLimit-Remaining" (toString info.remaining))
    "X-RateLimit-Reset" (toString info.reset)

/-- The method `RateLimitMiddleware.dispatch` (lines 106–146).  `now1` is the
`time.time()` sample taken inside `is_rate_limited`; `now2` is the later
`time.time()` sample taken on line 134 when building `retry_after`;
`client_host` is `request.client.host` and `path` is `request.url.path`;
`next` is the downstream handler's response.

* an exact `/health` path bypasses the limiter entirely;
* otherwise one `is_rate_limited(key=client_host, endpoint=path)` call is
  made (no explicit limit);
* when limited: a 429 response with the JSON rejection body and the three
  quota headers, `call_next` never awaited;
* when admitted: the handler's response with the three quota headers
  written onto its headers. -/
def dispatch (requests : RequestTable) (now1 now2 : ℚ)
    (client_host path : String) (next : HandlerResponse) : DispatchResult :=
  if path = "/health" then
    ⟨⟨next.status, .from_handler next.body_tag, next.headers⟩,
     requests, true, 0⟩
  else
    let r := is_rate_limited requests now1 client_host path none
    if r.is_limited then
      ⟨⟨429,
        .rate_limit_error "Too many requests" "rate_limit_exceeded"
          (r.info.reset - pyInt now2),
        rl_headers r.info (fun _ => none)⟩,
       r.requests, false, 1⟩
    else
      ⟨⟨next.status, .from_handler next.body_tag,
        rl_headers r.info next.headers⟩,
       r.requests, true, 1⟩

/-- The key under which `is_rate_limited` serializes itself:
`async with self.locks[key]` (line 50) indexes the `defaultdict` of locks
(line 23) by the client key alone, so a call for (key, endpoint) holds the
lock associated to `key`. -/
def lock_key (key _endpoint : String) : String := key

theorem default_limits_flat (category : String) (n : ℤ)
    (h : default_limits.lookup category = some (.flat n)) :
    category = "default" ∧ n = 60 := by
  by_cases h1 : category = "default"
  · subst h1
    simp [default_limits, List.lookup] at h
    exact ⟨rfl, by omega⟩
  · by_cases h2 : category = "resume"
    · subst h2; simp [default_limits, List.lookup] at h
    · by_cases h3 : category = "jobs"
      · subst h3; simp [default_limits, List.lookup] at h
      · by_cases h4 : category = "auth"
        · subst h4; simp [default_limits, List.lookup] at h
        · simp [default_limits, List.lookup, beq_eq_false_iff_ne.mpr h1,
            beq_eq_false_iff_ne.mpr h2, beq_eq_false_iff_ne.mpr h3,
            beq_eq_false_iff_ne.mpr h4] at h

/-- Claim C1: for a (client key, endpoint key) pair whose resolved limit
`L` is positive, in any sequence of `is_rate_limited` calls whose
timestamps all fall within the 60-second window measured from the pair's
last reset point `w0`, the first `L` calls are admitted
(`is_limited = false`) with `remaining` decreasing by exactly 1 on each
call (`L - 1, L - 2, …, 0`), every call after the `L`-th is rejected with
`remaining = 0`, and at most `L` calls in total are admitted. -/
theorem C1_window_invariant (key endpoint : String) (lim : Option ℤ)
    (L : ℤ) (hLim : eff_limit lim endpoint = L) (hpos : 0 < L)
    (w0 : ℚ) (ts : List ℚ) (requests : RequestTable)
    (hstart : requests (key, endpoint) = some ⟨0, w0⟩)
    (hwin : ∀ t ∈ ts, w0 ≤ t ∧ t - w0 < (WINDOW_SIZE : ℚ)) :
    (∀ i : ℕ, i < ts.length → (i : ℤ) < L →
      ((run_calls key endpoint lim requests ts).1)[i]?
        = some (false, ⟨L, L - (i + 1), pyInt (w0 + (WINDOW_SIZE : ℚ)),
            WINDOW_SIZE⟩))
    ∧ (∀ i : ℕ, i < ts.length → L ≤ (i : ℤ) →
      ((run_calls key endpoint lim requests ts).1)[i]?
        = some (true, ⟨L, 0, pyInt (w0 + (WINDOW_SIZE : ℚ)), WINDOW_SIZE⟩))
    ∧ ((run_calls key endpoint lim requests ts).1.filter
          (fun r => !r.1)).length ≤ L.toNat := by
  obtain ⟨hres, hcount⟩ :=
    run_calls_closed key endpoint lim L hLim w0 ts requests 0 hstart hwin
  refine ⟨?_, ?_, ?_⟩
  · intro i hi hiL
    rw [hres, List.getElem?_map, List.getElem?_range hi]
    simp only [Option.map_some']
    unfold window_result
    rw [if_pos (by omega)]
    simp
  · intro i hi hiL
    rw [hres, List.getElem?_map, List.getElem?_range hi]
    simp only [Option.map_some']
    unfold window_result
    rw [if_neg (by omega)]
  · rw [hcount]
    omega

/-- Fresh single-pair table used to instantiate the sequence claims:
client `1.2.3.4` with a window on `/resume/enhance` opened at time 0. -/
def fresh_pair_table : RequestTable :=
  fun p => if p = ("1.2.3.4", "/resume/enhance") then some ⟨0, 0⟩ else none

theorem C1_window_invariant_witness :
    ((run_calls "1.2.3.4" "/resume/enhance" none fresh_pair_table
        [0, 1, 2, 3, 4, 5, 6]).1)[5]?
      = some (true, ⟨5, 0, pyInt ((0 : ℚ) + (WINDOW_SIZE : ℚ)),
          WINDOW_SIZE⟩) := by
  have h := C1_window_invariant "1.2.3.4" "/resume/enhance" none 5
    (by decide) (by decide) 0 [0, 1, 2, 3, 4, 5, 6] fresh_pair_table
    (by decide)
    (by intro t ht; fin_cases ht <;> norm_num [WINDOW_SIZE])
  exact h.2.1 5 (by norm_num) (by norm_num)

/-- Claim C2: one `is_rate_limited(key, endpoint, limit)` call works on the
counter obtained by initializing the pair to `(0, now)` when absent and
resetting it to `(0, now)` when `now - window_start ≥ 60`; it reports
`is_limited = true` exactly when `count ≥ limit`; when not limited the
incremented counter is persisted in the returned table; and the returned
`info` is `{limit, remaining = max(0, limit - count_after_decision),
reset = int(window_start + 60), window = 60}`. -/
theorem C2_single_call_semantics (requests : RequestTable) (now : ℚ)
    (key endpoint : String) (lim : Option ℤ) :
    (is_rate_limited requests now key endpoint lim).is_limited
        = decide (eff_limit lim endpoint
            ≤ (after_reset now (looked_up requests now key endpoint)).count)
    ∧ (is_rate_limited requests now key endpoint lim).requests (key, endpoint)
        = some (if eff_limit lim endpoint
              ≤ (after_reset now (looked_up requests now key endpoint)).count
            then looked_up requests now key endpoint
            else ⟨(after_reset now (looked_up requests now key endpoint)).count + 1,
                  (after_reset now (looked_up requests now key endpoint)).window_start⟩)
    ∧ (is_rate_limited requests now key endpoint lim).info
        = ⟨eff_limit lim endpoint,
           max 0 (eff_limit lim endpoint
             - post_count (eff_limit lim endpoint)
                 (after_reset now (looked_up requests now key endpoint))),
           pyInt ((after_reset now (looked_up requests now key endpoint)).window_start
             + (WINDOW_SIZE : ℚ)),
           WINDOW_SIZE⟩ := by
  refine ⟨is_rate_limited_is_limited requests now key endpoint lim, ?_,
    is_rate_limited_info requests now key endpoint lim⟩
  rw [is_rate_limited_requests requests now key endpoint lim (key, endpoint),
    if_pos rfl]

/-- Claim C4: with no explicit limit, the endpoint path is split on `/`;
`/resume/enhance` resolves to 5, `/jobs/search` to 30, `/unknown/thing` to
the default 60, and a path with no second segment such as `/health` also
resolves to the default 60.  In general a category with a matching
per-operation sub-limit yields that sub-limit and the category configured
as a single flat limit yields that flat limit, while everything else
yields the global default 60: a configured sub-limit category whose
operation is unmatched (lines 74–75, e.g. `/jobs/matches/x`), a configured
sub-limit category with no operation segment at all (e.g. `/resume`), and
a category that is not configured (e.g. `/unknown/thing`). -/
theorem C4_limit_resolution :
    resolve_limit "/resume/enhance" = 5
    ∧ resolve_limit "/jobs/search" = 30
    ∧ resolve_limit "/unknown/thing" = 60
    ∧ resolve_limit "/health" = 60
    ∧ resolve_limit "/resume" = 60
    ∧ resolve_limit "/jobs/matches/x" = 60
    ∧ global_default = 60
    ∧ (∀ (endpoint p0 category op : String) (rest : List String)
         (ops : List (String × ℤ)) (l : ℤ),
        pySplit '/' endpoint = p0 :: category :: op :: rest →
        default_limits.lookup category = some (.sub ops) →
        ops.lookup op = some l →
        resolve_limit endpoint = l)
    ∧ (∀ (endpoint p0 category : String) (rest : List String) (n : ℤ),
        pySplit '/' endpoint = p0 :: category :: rest →
        default_limits.lookup category = some (.flat n) →
        resolve_limit endpoint = n)
    ∧ (∀ (endpoint p0 category op : String) (rest : List String)
         (ops : List (String × ℤ)),
        pySplit '/' endpoint = p0 :: category :: op :: rest →
        default_limits.lookup category = some (.sub ops) →
        ops.lookup op = none →
        resolve_limit endpoint = global_default)
    ∧ (∀ (endpoint p0 category : String) (ops : List (String × ℤ)),
        pySplit '/' endpoint = [p0, category] →
        default_limits.lookup category = some (.sub ops) →
        resolve_limit endpoint = global_default)
    ∧ (∀ (endpoint p0 category : String) (rest : List String),
        pySplit '/' endpoint = p0 :: category :: rest →
        default_limits.lookup category = none →
        resolve_limit endpoint = global_default) := by
  refine ⟨by decide, by decide, by decide, by decide, by decide, by decide,
    by decide, ?_, ?_, ?_, ?_, ?_⟩
  · intro endpoint p0 category op rest ops l hsplit hlu hol
    unfold resolve_limit
    rw [hsplit]
    simp [List.head?, hlu, hol]
  · intro endpoint p0 category rest n hsplit hlu
    obtain ⟨hcat, hn⟩ := default_limits_flat category n hlu
    unfold resolve_limit
    rw [hsplit]
    simp [hlu, global_default, hn]
  · intro endpoint p0 category op rest ops hsplit hlu hol
    unfold resolve_limit
    rw [hsplit]
    simp [List.head?, hlu, hol]
  · intro endpoint p0 category ops hsplit hlu
    unfold resolve_limit
    rw [hsplit]
    simp [List.head?, hlu]
  · intro endpoint p0 category rest hsplit hlu
    unfold resolve_limit
    rw [hsplit]
    simp [hlu]

theorem C4_limit_resolution_witness :
    pySplit '/' "/auth/login" = ["", "auth", "login"]
    ∧ default_limits.lookup "auth"
        = some (.sub [("login", 10), ("register", 5)])
    ∧ List.lookup "login" [("login", (10 : ℤ)), ("register", 5)] = some 10
    ∧ resolve_limit "/auth/login" = 10
    ∧ pySplit '/' "/jobs/matches/x" = ["", "jobs", "matches", "x"]
    ∧ default_limits.lookup "jobs"
        = some (.sub [("search", 30), ("apply", 20)])
    ∧ List.lookup "matches" [("search", (30 : ℤ)), ("apply", 20)] = none
    ∧ resolve_limit "/jobs/matches/x" = global_default
    ∧ pySplit '/' "/resume" = ["", "resume"]
    ∧ default_limits.lookup "resume"
        = some (.sub [("parse", 10), ("enhance", 5), ("analyze", 5)])
    ∧ resolve_limit "/resume" = global_default := by
  obtain ⟨-, -, -, -, -, -, -, hsub, -, hunmatched, habsent, -⟩ :=
    C4_limit_resolution
  refine ⟨by decide, by decide, by decide, ?_, by decide, by decide,
    by decide, ?_, by decide, by decide, ?_⟩
  · exact hsub "/auth/login" "" "auth" "login" []
      [("login", 10), ("register", 5)] 10 (by decide) (by decide) (by decide)
  · exact hunmatched "/jobs/matches/x" "" "jobs" "matches" ["x"]
      [("search", 30), ("apply", 20)] (by decide) (by decide) (by decide)
  · exact habsent "/resume" "" "resume"
      [("parse", 10), ("enhance", 5), ("analyze", 5)] (by decide) (by decide)

/-- Claim C3 as stated is false at a concrete input: two calls for the
same client key but different endpoint keys acquire the same lock, so the
exclusion is not scoped to the (client key, endpoint key) pair. -/
theorem C3_counterexample :
    lock_key "1.2.3.4" "/resume/enhance" = lock_key "1.2.3.4" "/jobs/search"
    ∧ ("/resume/enhance" : String) ≠ "/jobs/search" :=
  ⟨rfl, by decide⟩

/-- Claim C3 (amended): the mutual exclusion around the read-then-write of
a counter is scoped to the client key, not to the (client key, endpoint
key) pair: calls with different client keys never share a lock, while
calls for different endpoints of the same client key always share that
client's lock. -/
theorem C3_lock_granularity :
    (∀ k1 k2 e1 e2 : String, k1 ≠ k2 → lock_key k1 e1 ≠ lock_key k2 e2)
    ∧ (∀ k e1 e2 : String, lock_key k e1 = lock_key k e2) :=
  ⟨fun _ _ _ _ h => h, fun _ _ _ => rfl⟩

theorem C3_lock_granularity_witness :
    lock_key "1.2.3.4" "/resume/enhance" ≠ lock_key "5.6.7.8" "/resume/enhance"
    ∧ lock_key "1.2.3.4" "/resume/enhance" = lock_key "1.2.3.4" "/jobs/search" :=
  ⟨C3_lock_granularity.1 "1.2.3.4" "5.6.7.8" "/resume/enhance"
      "/resume/enhance" (by decide),
   C3_lock_granularity.2 "1.2.3.4" "/resume/enhance" "/jobs/search"⟩

/-- Claim C8: an `is_rate_limited` call for one pair never modifies the
stored counter of any other pair (whether it differs in client key, in
endpoint key, or both), and consequently a later call for that other pair
makes the same admission decision with the same `info` as it would have
made before. -/
theorem C8_independent_counters (requests : RequestTable) (now : ℚ)
    (key endpoint : String) (lim : Option ℤ)
    (p : String × String) (hp : p ≠ (key, endpoint)) :
    (is_rate_limited requests now key endpoint lim).requests p = requests p
    ∧ (∀ (now' : ℚ) (lim' : Option ℤ),
        (is_rate_limited
            ((is_rate_limited requests now key endpoint lim).requests)
            now' p.1 p.2 lim').is_limited
          = (is_rate_limited requests now' p.1 p.2 lim').is_limited
        ∧ (is_rate_limited
            ((is_rate_limited requests now key endpoint lim).requests)
            now' p.1 p.2 lim').info
          = (is_rate_limited requests now' p.1 p.2 lim').info) := by
  have hframe : (is_rate_limited requests now key endpoint lim).requests p
      = requests p := by
    rw [is_rate_limited_requests requests now key endpoint lim p, if_neg hp]
  refine ⟨hframe, fun now' lim' => ?_⟩
  have hl : looked_up ((is_rate_limited requests now key endpoint lim).requests)
      now' p.1 p.2 = looked_up requests now' p.1 p.2 := by
    unfold looked_up
    rw [show (p.1, p.2) = p from rfl, hframe]
  constructor
  · rw [is_rate_limited_is_limited, is_rate_limited_is_limited, hl]
  · rw [is_rate_limited_info, is_rate_limited_info, hl]

theorem C8_independent_counters_witness :
    (is_rate_limited fresh_pair_table 0 "1.2.3.4" "/resume/enhance"
        none).requests ("1.2.3.4", "/jobs/search")
      = fresh_pair_table ("1.2.3.4", "/jobs/search") :=
  (C8_independent_counters fresh_pair_table 0 "1.2.3.4" "/resume/enhance"
    none ("1.2.3.4", "/jobs/search") (by decide)).1

/-- Claim C10: an `is_rate_limited` call that rejects a request whose
(client key, endpoint key) pair already has a stored counter leaves that
stored counter exactly as it was. -/
theorem C10_rejection_no_mutation (requests : RequestTable) (now : ℚ)
    (key endpoint : String) (lim : Option ℤ) (c : Counter)
    (hc : requests (key, endpoint) = some c)
    (hlim : (is_rate_limited requests now key endpoint lim).is_limited
      = true) :
    (is_rate_limited requests now key endpoint lim).requests (key, endpoint)
      = some c := by
  rw [is_rate_limited_is_limited] at hlim
  rw [is_rate_limited_requests requests now key endpoint lim (key, endpoint),
    if_pos rfl, if_pos (by simpa using hlim)]
  unfold looked_up
  rw [hc]

/-- A table whose pair ("1.2.3.4", "/resume/enhance") has exhausted its
quota of 5 inside the window opened at time 0 — exactly the counter left
behind by five admitted requests at time 0. -/
def exhausted_pair_table : RequestTable :=
  fun p => if p = ("1.2.3.4", "/resume/enhance") then some ⟨5, 0⟩ else none

theorem C10_rejection_no_mutation_witness :
    (is_rate_limited exhausted_pair_table 1 "1.2.3.4" "/resume/enhance"
        none).requests ("1.2.3.4", "/resume/enhance") = some ⟨5, 0⟩ := by
  have heff : eff_limit none "/resume/enhance" = 5 := by decide
  have hlim : (is_rate_limited exhausted_pair_table 1 "1.2.3.4"
      "/resume/enhance" none).is_limited = true := by
    rw [is_rate_limited_is_limited]
    have h1 : looked_up exhausted_pair_table 1 "1.2.3.4" "/resume/enhance"
        = ⟨5, 0⟩ := by unfold looked_up exhausted_pair_table; rfl
    have h2 : after_reset 1 (⟨5, 0⟩ : Counter) = ⟨5, 0⟩ := by
      unfold after_reset
      rw [if_neg (by norm_num [WINDOW_SIZE])]
    rw [h1, h2, heff]
    decide
  exact C10_rejection_no_mutation exhausted_pair_table 1 "1.2.3.4"
    "/resume/enhance" none ⟨5, 0⟩ rfl hlim

/-- Variant of `is_rate_limited` with its only fallible step — the `parts[1]` /
`parts[2]` indexing inside limit resolution — made explicit: `none` stands
for a raised `IndexError`.  All dict accesses are guarded (`in` checks /
prior insertion) and cannot raise. -/
def is_rate_limited_checked (requests : RequestTable) (now : ℚ)
    (key endpoint : String) (lim : Option ℤ) : Option RLResult :=
  let requests1 : RequestTable :=
    match requests (key, endpoint) with
    | none => fun p => if p = (key, endpoint) then some ⟨0, now⟩ else requests p
    | some _ => requests
  let c0 : Counter := (requests1 (key, endpoint)).getD ⟨0, now⟩
  let c1 : Counter :=
    if (WINDOW_SIZE : ℚ) ≤ now - c0.window_start then ⟨0, now⟩ else c0
  match (match lim with
         | some l => some l
         | none => resolve_limit_checked endpoint) with
  | none => none
  | some limit =>
    let is_lim : Bool := decide (limit ≤ c1.count)
    let count2 : ℤ := if is_lim then c1.count else c1.count + 1
    let requests2 : RequestTable :=
      if is_lim then requests1
      else fun p =>
        if p = (key, endpoint) then some ⟨count2, c1.window_start⟩
        else requests1 p
    let reset_time : ℚ := c1.window_start + (WINDOW_SIZE : ℚ)
    some ⟨is_lim,
          ⟨limit, max 0 (limit - count2), pyInt reset_time, WINDOW_SIZE⟩,
          requests2⟩

/-- Claim C9: `is_rate_limited` never raises: the checked variant returns
`some` of the total function's result on every input; the empty endpoint
string and every path without a second `/`-separated segment resolve to
the default limit 60 instead of failing. -/
theorem C9_never_raises :
    (∀ (requests : RequestTable) (now : ℚ) (key endpoint : String)
       (lim : Option ℤ),
      is_rate_limited_checked requests now key endpoint lim
        = some (is_rate_limited requests now key endpoint lim))
    ∧ resolve_limit "" = global_default
    ∧ (∀ endpoint : String, (pySplit '/' endpoint).length < 2 →
        resolve_limit endpoint = global_default) := by
  refine ⟨?_, by decide, ?_⟩
  · intro requests now key endpoint lim
    cases lim with
    | some l => rfl
    | none =>
      unfold is_rate_limited_checked
      rw [resolve_limit_checked_eq]
      rfl
  · intro endpoint hlen
    unfold resolve_limit
    cases hp : pySplit '/' endpoint with
    | nil => rfl
    | cons a rest =>
      cases rest with
      | nil => rfl
      | cons b rest' =>
        rw [hp] at hlen
        simp only [List.length_cons] at hlen
        omega

theorem C9_never_raises_witness :
    (pySplit '/' "health").length < 2
    ∧ resolve_limit "health" = global_default :=
  ⟨by decide, C9_never_raises.2.2 "health" (by decide)⟩

theorem rl_headers_limit (info : RLInfo) (base : String → Option String) :
    rl_headers info base "X-RateLimit-Limit" = some (toString info.limit) := by
  simp [rl_headers, set_header]

theorem rl_headers_remaining (info : RLInfo) (base : String → Option String) :
    rl_headers info base "X-RateLimit-Remaining"
      = some (toString info.remaining) := by
  simp [rl_headers, set_header]

theorem rl_headers_reset (info : RLInfo) (base : String → Option String) :
    rl_headers info base "X-RateLimit-Reset" = some (toString info.reset) := by
  simp [rl_headers, set_header]

theorem dispatch_not_health (requests : RequestTable) (now1 now2 : ℚ)
    (client_host path : String) (next : HandlerResponse)
    (hpath : path ≠ "/health") :
    dispatch requests now1 now2 client_host path next
      = if (is_rate_limited requests now1 client_host path none).is_limited then
          ⟨⟨429,
            .rate_limit_error "Too many requests" "rate_limit_exceeded"
              ((is_rate_limited requests now1 client_host path none).info.reset
                - pyInt now2),
            rl_headers
              (is_rate_limited requests now1 client_host path none).info
              (fun _ => none)⟩,
           (is_rate_limited requests now1 client_host path none).requests,
           false, 1⟩
        else
          ⟨⟨next.status, .from_handler next.body_tag,
            rl_headers
              (is_rate_limited requests now1 client_host path none).info
              next.headers⟩,
           (is_rate_limited requests now1 client_host path none).requests,
           true, 1⟩ := by
  unfold dispatch
  rw [if_neg hpath]

/-- Claim C5: for every non-bypassed request, the middleware translates
the limiter's decision as follows: when limited it returns status 429 with
the JSON body `{"detail": "Too many requests",
"type": "rate_limit_exceeded", "retry_after": <integer>}` and never
invokes the downstream handler; when admitted it invokes the handler and
returns its response with status and body unchanged; in both cases the
response carries `X-RateLimit-Limit`, `X-RateLimit-Remaining` and
`X-RateLimit-Reset` holding that check's limit, remaining and reset. -/
theorem C5_middleware_translation (requests : RequestTable) (now1 now2 : ℚ)
    (client_host path : String) (next : HandlerResponse)
    (hpath : path ≠ "/health") :
    ((is_rate_limited requests now1 client_host path none).is_limited = true →
      (dispatch requests now1 now2 client_host path next).response.status = 429
      ∧ (dispatch requests now1 now2 client_host path next).response.body
          = .rate_limit_error "Too many requests" "rate_limit_exceeded"
              ((is_rate_limited requests now1 client_host path none).info.reset
                - pyInt now2)
      ∧ (dispatch requests now1 now2 client_host path next).handler_invoked
          = false)
    ∧ ((is_rate_limited requests now1 client_host path none).is_limited
        = false →
      (dispatch requests now1 now2 client_host path next).response.status
          = next.status
      ∧ (dispatch requests now1 now2 client_host path next).response.body
          = .from_handler next.body_tag
      ∧ (dispatch requests now1 now2 client_host path next).handler_invoked
          = true)
    ∧ (dispatch requests now1 now2 client_host path next).response.headers
          "X-RateLimit-Limit"
        = some (toString
            (is_rate_limited requests now1 client_host path none).info.limit)
    ∧ (dispatch requests now1 now2 client_host path next).response.headers
          "X-RateLimit-Remaining"
        = some (toString
            (is_rate_limited requests now1 client_host path none).info.remaining)
    ∧ (dispatch requests now1 now2 client_host path next).response.headers
          "X-RateLimit-Reset"
        = some (toString
            (is_rate_limited requests now1 client_host path none).info.reset) := by
  rw [dispatch_not_health requests now1 now2 client_host path next hpath]
  cases hlim : (is_rate_limited requests now1 client_host path none).is_limited
  · simp [hlim, rl_headers_limit, rl_headers_remaining, rl_headers_reset]
  · simp [hlim, rl_headers_limit, rl_headers_remaining, rl_headers_reset]

theorem C5_middleware_translation_witness :
    (dispatch (fun _ => none) 0 0 "1.2.3.4" "/resume/enhance"
        ⟨200, 7, fun _ => none⟩).response.headers "X-RateLimit-Limit"
      = some (toString (is_rate_limited (fun _ => none) 0 "1.2.3.4"
          "/resume/enhance" none).info.limit) :=
  (C5_middleware_translation (fun _ => none) 0 0 "1.2.3.4" "/resume/enhance"
    ⟨200, 7, fun _ => none⟩ (by decide)).2.2.1

/-- Claim C7: a request whose path is exactly `/health` is passed through
untouched — the limiter is never consulted, the counter table is
unchanged, and the response keeps the handler's status, body and headers
with no rate-limit headers added — while every other request triggers
exactly one `is_rate_limited` call. -/
theorem C7_health_bypass (requests : RequestTable) (now1 now2 : ℚ)
    (client_host : String) (next : HandlerResponse) (path : String) :
    (dispatch requests now1 now2 client_host "/health" next).response.status
        = next.status
    ∧ (dispatch requests now1 now2 client_host "/health" next).response.body
        = .from_handler next.body_tag
    ∧ (dispatch requests now1 now2 client_host "/health" next).response.headers
        = next.headers
    ∧ (dispatch requests now1 now2 client_host "/health" next).requests
        = requests
    ∧ (dispatch requests now1 now2 client_host "/health" next).limiter_calls
        = 0
    ∧ (dispatch requests now1 now2 client_host "/health" next).handler_invoked
        = true
    ∧ (path ≠ "/health" →
        (dispatch requests now1 now2 client_host path next).limiter_calls
          = 1) := by
  refine ⟨rfl, rfl, rfl, rfl, rfl, rfl, fun hpath => ?_⟩
  rw [dispatch_not_health requests now1 now2 client_host path next hpath]
  cases hlim : (is_rate_limited requests now1 client_host path none).is_limited
  · simp
  · simp

theorem C7_health_bypass_witness :
    ("/jobs/search" : String) ≠ "/health"
    ∧ (dispatch (fun _ => none) 0 0 "1.2.3.4" "/jobs/search"
        ⟨200, 0, fun _ => none⟩).limiter_calls = 1 :=
  ⟨by decide,
   (C7_health_bypass (fun _ => none) 0 0 "1.2.3.4" ⟨200, 0, fun _ => none⟩
     "/jobs/search").2.2.2.2.2.2 (by decide)⟩

theorem first_call_step (requests : RequestTable) (now : ℚ)
    (key endpoint : String)
    (hc : requests (key, endpoint) = none)
    (hpos : 0 < eff_limit none endpoint) :
    (is_rate_limited requests now key endpoint none).is_limited = false
    ∧ (is_rate_limited requests now key endpoint none).requests
      = fun p => if p = (key, endpoint) then some ⟨1, now⟩
          else requests p := by
  have hl : looked_up requests now key endpoint = ⟨0, now⟩ := by
    unfold looked_up; rw [hc]
  have hr : after_reset now (⟨0, now⟩ : Counter) = ⟨0, now⟩ := by
    unfold after_reset; split <;> rfl
  constructor
  · rw [is_rate_limited_is_limited, hl, hr]
    simp
    omega
  · funext p
    rw [is_rate_limited_requests, hl, hr]
    by_cases hp : p = (key, endpoint)
    · rw [if_pos hp, if_pos hp, if_neg (by simp; omega)]
      simp
    · rw [if_neg hp, if_neg hp]

theorem in_window_admitted_step (requests : RequestTable) (now : ℚ)
    (key endpoint : String) (c : ℤ) (w0 : ℚ)
    (hc : requests (key, endpoint) = some ⟨c, w0⟩)
    (hw : ¬(WINDOW_SIZE : ℚ) ≤ now - w0)
    (hlt : c < eff_limit none endpoint) :
    (is_rate_limited requests now key endpoint none).is_limited = false
    ∧ (is_rate_limited requests now key endpoint none).requests
      = fun p => if p = (key, endpoint) then some ⟨c + 1, w0⟩
          else requests p := by
  have hl : looked_up requests now key endpoint = ⟨c, w0⟩ := by
    unfold looked_up; rw [hc]
  have hr : after_reset now (⟨c, w0⟩ : Counter) = ⟨c, w0⟩ := by
    unfold after_reset; rw [if_neg hw]
  constructor
  · rw [is_rate_limited_is_limited, hl, hr]
    simp
    omega
  · funext p
    rw [is_rate_limited_requests, hl, hr]
    by_cases hp : p = (key, endpoint)
    · rw [if_pos hp, if_pos hp, if_neg (by simp; omega)]
    · rw [if_neg hp, if_neg hp]

theorem in_window_limited_step (requests : RequestTable) (now : ℚ)
    (key endpoint : String) (c : ℤ) (w0 : ℚ)
    (hc : requests (key, endpoint) = some ⟨c, w0⟩)
    (hw : ¬(WINDOW_SIZE : ℚ) ≤ now - w0)
    (hge : eff_limit none endpoint ≤ c) :
    (is_rate_limited requests now key endpoint none).is_limited = true
    ∧ (is_rate_limited requests now key endpoint none).info
      = ⟨eff_limit none endpoint, max 0 (eff_limit none endpoint - c),
         pyInt (w0 + (WINDOW_SIZE : ℚ)), WINDOW_SIZE⟩ := by
  have hl : looked_up requests now key endpoint = ⟨c, w0⟩ := by
    unfold looked_up; rw [hc]
  have hr : after_reset now (⟨c, w0⟩ : Counter) = ⟨c, w0⟩ := by
    unfold after_reset; rw [if_neg hw]
  constructor
  · rw [is_rate_limited_is_limited, hl, hr]
    simpa using hge
  · rw [is_rate_limited_info, hl, hr]
    unfold post_count
    rw [if_pos (by simpa using hge)]

/-- The §8 scenario: successive requests from client "1.2.3.4" to
`/resume/enhance` against a fresh limiter, all with both clock samples at
time 0, downstream handler answering 200; `scenario_dispatch n` is the
result of the `(n+1)`-th request. -/
def scenario_dispatch : ℕ → DispatchResult
  | 0 => dispatch (fun _ => none) 0 0 "1.2.3.4" "/resume/enhance"
      ⟨200, 0, fun _ => none⟩
  | n + 1 => dispatch (scenario_dispatch n).requests 0 0 "1.2.3.4"
      "/resume/enhance" ⟨200, 0, fun _ => none⟩

/-- Claim C6 as stated is false at a concrete input: with the quota for
("1.2.3.4", "/resume/enhance") exhausted in the window opened at time 0,
a rejection whose limiter clock sample is 59 and whose middleware clock
sample is 61 carries `retry_after = -1 < 0`: line 134 computes
`info["reset"] - int(time.time())` with no flooring at 0. -/
theorem C6_counterexample :
    (dispatch exhausted_pair_table 59 61 "1.2.3.4" "/resume/enhance"
        ⟨200, 0, fun _ => none⟩).response.body
      = .rate_limit_error "Too many requests" "rate_limit_exceeded" (-1)
    ∧ (-1 : ℤ) < 0 := by
  have heff : eff_limit none "/resume/enhance" = 5 := by decide
  obtain ⟨hlim, hinfo⟩ := in_window_limited_step exhausted_pair_table 59
    "1.2.3.4" "/resume/enhance" 5 0 rfl (by norm_num [WINDOW_SIZE])
    (by simp [heff])
  refine ⟨?_, by norm_num⟩
  rw [dispatch_not_health _ _ _ _ _ _ (by decide), if_pos hlim]
  simp only [hinfo]
  norm_num [heff, pyInt, WINDOW_SIZE]

/-- Claim C6 (amended): the `retry_after` value in the 429 rejection body
equals `reset - int(now)` with no flooring at 0, so it can be negative
when the middleware's clock sample passes the reset time; in the scenario
where a client exhausts its quota of 5 on `/resume/enhance` (six requests
in immediate succession at time 0 against a fresh limiter), the first five
are admitted and the 6th is rejected with `retry_after = 60 > 0`. -/
theorem C6_retry_after_no_floor (requests : RequestTable) (now1 now2 : ℚ)
    (client_host path : String) (next : HandlerResponse)
    (hpath : path ≠ "/health")
    (hlim : (is_rate_limited requests now1 client_host path none).is_limited
      = true) :
    ((dispatch requests now1 now2 client_host path next).response.body
      = .rate_limit_error "Too many requests" "rate_limit_exceeded"
          ((is_rate_limited requests now1 client_host path none).info.reset
            - pyInt now2))
    ∧ ((scenario_dispatch 0).response.status = 200
      ∧ (scenario_dispatch 1).response.status = 200
      ∧ (scenario_dispatch 2).response.status = 200
      ∧ (scenario_dispatch 3).response.status = 200
      ∧ (scenario_dispatch 4).response.status = 200
      ∧ (scenario_dispatch 5).response.status = 429
      ∧ (scenario_dispatch 5).response.body
          = .rate_limit_error "Too many requests" "rate_limit_exceeded" 60
      ∧ (0 : ℤ) < 60) := by
  constructor
  · rw [dispatch_not_health _ _ _ _ _ _ hpath, if_pos hlim]
  · have heff : eff_limit none "/resume/enhance" = 5 := by decide
    have hw : ¬(WINDOW_SIZE : ℚ) ≤ 0 - 0 := by norm_num [WINDOW_SIZE]
    have hne : ("/resume/enhance" : String) ≠ "/health" := by decide
    obtain ⟨l0, t0⟩ := first_call_step (fun _ => none) 0 "1.2.3.4"
      "/resume/enhance" rfl (by decide)
    have s0 : (scenario_dispatch 0).response.status = 200 := by
      show (dispatch (fun _ => none) 0 0 "1.2.3.4" "/resume/enhance"
        ⟨200, 0, fun _ => none⟩).response.status = 200
      rw [dispatch_not_health _ _ _ _ _ _ hne]
      simp [l0]
    have r0 : (scenario_dispatch 0).requests ("1.2.3.4", "/resume/enhance")
        = some ⟨1, 0⟩ := by
      show (dispatch (fun _ => none) 0 0 "1.2.3.4" "/resume/enhance"
        ⟨200, 0, fun _ => none⟩).requests ("1.2.3.4", "/resume/enhance")
        = some ⟨1, 0⟩
      rw [dispatch_not_health _ _ _ _ _ _ hne]
      simp [l0, t0]
    obtain ⟨l1, t1⟩ := in_window_admitted_step ((scenario_dispatch 0).requests)
      0 "1.2.3.4" "/resume/enhance" 1 0 r0 hw (by simp [heff])
    have s1 : (scenario_dispatch 1).response.status = 200 := by
      show (dispatch (scenario_dispatch 0).requests 0 0 "1.2.3.4"
        "/resume/enhance" ⟨200, 0, fun _ => none⟩).response.status = 200
      rw [dispatch_not_health _ _ _ _ _ _ hne]
      simp [l1]
    have r1 : (scenario_dispatch 1).requests ("1.2.3.4", "/resume/enhance")
        = some ⟨2, 0⟩ := by
      show (dispatch (scenario_dispatch 0).requests 0 0 "1.2.3.4"
        "/resume/enhance" ⟨200, 0, fun _ => none⟩).requests
        ("1.2.3.4", "/resume/enhance") = some ⟨2, 0⟩
      rw [dispatch_not_health _ _ _ _ _ _ hne]
      simp [l1, t1]
    obtain ⟨l2, t2⟩ := in_window_admitted_step ((scenario_dispatch 1).requests)
      0 "1.2.3.4" "/resume/enhance" 2 0 r1 hw (by simp [heff])
    have s2 : (scenario_dispatch 2).response.status = 200 := by
      show (dispatch (scenario_dispatch 1).requests 0 0 "1.2.3.4"
        "/resume/enhance" ⟨200, 0, fun _ => none⟩).response.status = 200
      rw [dispatch_not_health _ _ _ _ _ _ hne]
      simp [l2]
    have r2 : (scenario_dispatch 2).requests ("1.2.3.4", "/resume/enhance")
        = some ⟨3, 0⟩ := by
      show (dispatch (scenario_dispatch 1).requests 0 0 "1.2.3.4"
        "/resume/enhance" ⟨200, 0, fun _ => none⟩).requests
        ("1.2.3.4", "/resume/enhance") = some ⟨3, 0⟩
      rw [dispatch_not_health _ _ _ _ _ _ hne]
      simp [l2, t2]
    obtain ⟨l3, t3⟩ := in_window_admitted_step ((scenario_dispatch 2).requests)
      0 "1.2.3.4" "/resume/enhance" 3 0 r2 hw (by simp [heff])
    have s3 : (scenario_dispatch 3).response.status = 200 := by
      show (dispatch (scenario_dispatch 2).requests 0 0 "1.2.3.4"
        "/resume/enhance" ⟨200, 0, fun _ => none⟩).response.status = 200
      rw [dispatch_not_health _ _ _ _ _ _ hne]
      simp [l3]
    have r3 : (scenario_dispatch 3).requests ("1.2.3.4", "/resume/enhance")
        = some ⟨4, 0⟩ := by
      show (dispatch (scenario_dispatch 2).requests 0 0 "1.2.3.4"
        "/resume/enhance" ⟨200, 0, fun _ => none⟩).requests
        ("1.2.3.4", "/resume/enhance") = some ⟨4, 0⟩
      rw [dispatch_not_health _ _ _ _ _ _ hne]
      simp [l3, t3]
    obtain ⟨l4, t4⟩ := in_window_admitted_step ((scenario_dispatch 3).requests)
      0 "1.2.3.4" "/resume/enhance" 4 0 r3 hw (by simp [heff])
    have s4 : (scenario_dispatch 4).response.status = 200 := by
      show (dispatch (scenario_dispatch 3).requests 0 0 "1.2.3.4"
        "/resume/enhance" ⟨200, 0, fun _ => none⟩).response.status = 200
      rw [dispatch_not_health _ _ _ _ _ _ hne]
      simp [l4]
    have r4 : (scenario_dispatch 4).requests ("1.2.3.4", "/resume/enhance")
        = some ⟨5, 0⟩ := by
      show (dispatch (scenario_dispatch 3).requests 0 0 "1.2.3.4"
        "/resume/enhance" ⟨200, 0, fun _ => none⟩).requests
        ("1.2.3.4", "/resume/enhance") = some ⟨5, 0⟩
      rw [dispatch_not_health _ _ _ _ _ _ hne]
      simp [l4, t4]
    obtain ⟨l5, i5⟩ := in_window_limited_step ((scenario_dispatch 4).requests)
      0 "1.2.3.4" "/resume/enhance" 5 0 r4 hw (by simp [heff])
    have s5 : (scenario_dispatch 5).response.status = 429 := by
      show (dispatch (scenario_dispatch 4).requests 0 0 "1.2.3.4"
        "/resume/enhance" ⟨200, 0, fun _ => none⟩).response.status = 429
      rw [dispatch_not_health _ _ _ _ _ _ hne]
      simp [l5]
    have b5 : (scenario_dispatch 5).response.body
        = .rate_limit_error "Too many requests" "rate_limit_exceeded" 60 := by
      show (dispatch (scenario_dispatch 4).requests 0 0 "1.2.3.4"
        "/resume/enhance" ⟨200, 0, fun _ => none⟩).response.body
        = .rate_limit_error "Too many requests" "rate_limit_exceeded" 60
      rw [dispatch_not_health _ _ _ _ _ _ hne, if_pos l5]
      simp only [i5]
      norm_num [heff, pyInt, WINDOW_SIZE]
    exact ⟨s0, s1, s2, s3, s4, s5, b5, by norm_num⟩

theorem C6_retry_after_no_floor_witness :
    ("/resume/enhance" : String) ≠ "/health"
    ∧ (is_rate_limited exhausted_pair_table 59 "1.2.3.4" "/resume/enhance"
        none).is_limited = true
    ∧ (dispatch exhausted_pair_table 59 61 "1.2.3.4" "/resume/enhance"
        ⟨200, 0, fun _ => none⟩).response.body
      = .rate_limit_error "Too many requests" "rate_limit_exceeded"
          ((is_rate_limited exhausted_pair_table 59 "1.2.3.4"
              "/resume/enhance" none).info.reset - pyInt 61) := by
  have heff : eff_limit none "/resume/enhance" = 5 := by decide
  have hlim := (in_window_limited_step exhausted_pair_table 59 "1.2.3.4"
    "/resume/enhance" 5 0 rfl (by norm_num [WINDOW_SIZE]) (by simp [heff])).1
  exact ⟨by decide, hlim,
    (C6_retry_after_no_floor exhausted_pair_table 59 61 "1.2.3.4"
      "/resume/enhance" ⟨200, 0, fun _ => none⟩ (by decide) hlim).1⟩
